import Mathlib

/-!
# Verification of the GAME SDK core (game-python)

Shallow embedding of `src/game_sdk/game/utils.py`, `src/game_sdk/game/exceptions.py`
and `src/game_sdk/game/agent.py`, together with theorems settling the frozen
claims about the specification.

Python dictionaries are modelled as insertion-ordered association lists over
string keys; JSON values as the inductive `JVal`; raised exceptions as the
inductive `PyExn`; HTTP traffic as explicit `HttpRequest`/`HttpResponse`
records, with each transport function returning both the list of requests it
issued and an `Except PyExn` result.
-/

namespace GameSDK

/-- A JSON-like Python value (the payloads the SDK passes around). -/
inductive JVal where
  | null
  | bool (b : Bool)
  | num (n : Int)
  | str (s : String)
  | arr (elems : List JVal)
  | obj (fields : List (String × JVal))
deriving Repr, BEq

/-- Python truthiness of a `JVal` (`if not x:` semantics). -/
def JVal.truthy : JVal → Bool
  | .null => false
  | .bool b => b
  | .num n => n != 0
  | .str s => s ≠ ""
  | .arr es => !es.isEmpty
  | .obj fs => !fs.isEmpty

/-- Whether the value is a Python `dict`. -/
def JVal.isObj : JVal → Bool
  | .obj _ => true
  | _ => false

/-- Lookup in an association-list dictionary (Python `d[k]` / `d.get(k)` core). -/
def dictGet? {α : Type} (d : List (String × α)) (k : String) : Option α :=
  (d.find? (fun p => p.1 = k)).map (·.2)

/-- Python `d[k] = v`: update in place when the key exists, append otherwise. -/
def dictInsert {α : Type} (k : String) (v : α) (d : List (String × α)) :
    List (String × α) :=
  if d.any (fun p => p.1 = k) then
    d.map (fun p => if p.1 = k then (k, v) else p)
  else
    d ++ [(k, v)]

/-- Python `dict.get(key, default)` on a `JVal`; `none` models the
`AttributeError` raised when the receiver is not a `dict`. -/
def JVal.pyGet (v : JVal) (k : String) (d : JVal) : Option JVal :=
  match v with
  | .obj fs => some ((dictGet? fs k).getD d)
  | _ => none

/-- Subscripting a dictionary by an arbitrary value (`d[k]` where `k` is a
Python value): only string keys can hit, anything else is a miss (KeyError). -/
def pyDictGetKey {α : Type} (d : List (String × α)) (k : JVal) : Option α :=
  match k with
  | .str s => dictGet? d s
  | _ => none

/-- The exceptions the embedded code can raise (`exceptions.py` plus the
built-in Python exceptions the code paths can produce). -/
inductive PyExn where
  | authenticationError (message : String)
  | validationError (message : JVal)
  | apiError (message : String) (status_code : Option Nat)
  | valueError (message : String)
  | typeError (message : String)
  | keyError (key : JVal)
  | attributeError (message : String)
deriving Repr, BEq

/-- One HTTP request as issued by the transport layer. -/
structure HttpRequest where
  url : String
  headers : List (String × String)
  body : JVal
deriving Repr, BEq

/-- The HTTP response handed back to the transport layer.  `text` is the raw
body; `json` is its parse (`none` models a body on which `response.json()`
raises `JSONDecodeError`). -/
structure HttpResponse where
  status_code : Nat
  text : String
  json : Option JVal
deriving Repr, BEq

/-- The single request `utils.post` issues: the target URL with the API key
sent directly as the bearer credential (source lines 69–75). -/
def postRequest (base_url api_key endpoint : String) (data : JVal) : HttpRequest :=
  { url := base_url ++ endpoint
    headers := [("Authorization", "Bearer " ++ api_key)]
    body := data }

/-- `utils.post`'s response classification, exactly as the source orders it
(401, 400, 429, >= 500, then the body-parsing fall-through). -/
def postResult (resp : HttpResponse) : Except PyExn JVal :=
  if resp.status_code = 401 then
      .error (.authenticationError "Invalid API key")
    else if resp.status_code = 400 then
      match resp.json with
      | none =>
        -- `response.json()` raises `requests.exceptions.JSONDecodeError`, a
        -- `RequestException`, caught by the outermost handler.
        .error (.apiError "Request failed: invalid JSON body" none)
      | some j =>
        match j.pyGet "error" (.obj []) with
        | none => .error (.attributeError "get")
        | some e =>
          match e.pyGet "message" (.str "Invalid request") with
          | none => .error (.attributeError "get")
          | some m => .error (.validationError m)
    else if resp.status_code = 429 then
      .error (.apiError "Rate limit exceeded" (some 429))
    else if resp.status_code ≥ 500 then
      .error (.apiError "Server error" (some resp.status_code))
    else
      if resp.text ≠ "" then
        match resp.json with
        | none => .error (.apiError "Invalid JSON response" none)
        | some j =>
          match j.pyGet "data" (.obj []) with
          | none => .error (.attributeError "get")
          | some d => .ok d
      else
        .ok (.obj [])

/-- `utils.post`: issues one request and classifies the response.  Returns the
requests issued together with the result. -/
def post (base_url api_key endpoint : String) (data : JVal)
    (resp : HttpResponse) : List HttpRequest × Except PyExn JVal :=
  ([postRequest base_url api_key endpoint data], postResult resp)

/-- Python `not name.strip()` for a string: true exactly when every character
is whitespace (the stripped string is empty). -/
def isBlank (s : String) : Bool :=
  s.toList.all Char.isWhitespace

/-- `utils.create_agent`: validates the name before any network call, then
posts to `/v2/agents` and extracts the `id` field.  The `name` argument is
`none` when the caller passed a non-string value. -/
def create_agent (base_url api_key : String) (name : Option String)
    (description goal : String) (resp : HttpResponse) :
    List HttpRequest × Except PyExn JVal :=
  let invalid : Bool :=
    match name with
    | none => true
    | some n => isBlank n
  if invalid then
    ([], .error (.validationError (.str "Name cannot be empty")))
  else
    let n := name.getD ""
    let body : JVal := .obj
      [("name", .str n), ("description", .str description), ("goal", .str goal)]
    let (reqs, r) := post base_url api_key "/v2/agents" body resp
    match r with
    | .error e => (reqs, .error e)
    | .ok v =>
      match v.pyGet "id" .null with
      | none => (reqs, .error (.attributeError "get"))
      | some agent_id =>
        if agent_id.truthy then (reqs, .ok agent_id)
        else (reqs, .error (.apiError "Failed to create agent: missing id in response" none))

/-- Modelled from the spec: `custom_types.py` is absent from `src/`.
A `FunctionResult` is the immutable record of one function execution — action
identifier, status (`DONE`/`ERROR` as a string), feedback message, and an
open-ended information mapping. -/
structure FunctionResult where
  action_id : String
  action_status : String
  feedback_message : String
  info : List (String × JVal)

/-- Modelled from the spec: `custom_types.py` is absent from `src/`.
A `Function` is a named, described, remotely-advertised action bound to a local
executable; `execute` is the opaque user-supplied executable, invoked by
`Agent.step` with the whole `action_args` mapping as keyword arguments. -/
structure Function where
  fn_name : String
  fn_description : String
  args : List JVal
  execute : List (String × JVal) → FunctionResult

/-- Modelled from the spec: the advertised function definition sent to the
remote service (name, description, argument declarations). -/
def Function.get_function_def (f : Function) : JVal :=
  .obj [("fn_name", .str f.fn_name), ("fn_description", .str f.fn_description),
        ("args", .arr f.args)]

/-- Modelled from the spec: `custom_types.py` is absent from `src/`.
The action type of a remote decision; `unrecognized` stands for any other
value reaching the dispatch in `Agent.step` (the source's `else` branch), with
the string the type renders as in the error message. -/
inductive ActionType where
  | CALL_FUNCTION
  | CONTINUE_FUNCTION
  | WAIT
  | GO_TO
  | unrecognized (value : String)

/-- Modelled from the spec: `custom_types.py` is absent from `src/`.
The remote decision, restricted to the two fields `Agent.step`'s dispatch
reads: the action type and the action-args mapping (`none` models Python
`None`).  The embedded agent-state view (`hlp.change_indicator`) is only
printed by the source and is not modelled. -/
structure ActionResponse where
  action_type : ActionType
  action_args : Option (List (String × JVal))

/-- `agent.WorkerConfig`: id, description, instruction, the caller-supplied
state callback (`get_state_fn_raw`, which may return any Python value) and the
action space as a name-keyed dictionary. -/
structure WorkerConfig where
  id : String
  worker_description : String
  instruction : String
  get_state_fn_raw : Option FunctionResult → Option JVal → JVal
  action_space : List (String × Function)

/-- `WorkerConfig.__init__`'s action-space construction: a dict built from the
list, keyed by each function's advertised name (duplicates overwrite). -/
def mkActionSpace (fns : List Function) : List (String × Function) :=
  fns.foldl (fun d f => dictInsert f.fn_name f d) []

/-- The wrapped state callback set up in `WorkerConfig.__init__`:
`{"instructions": self.instruction, **get_state_fn(function_result,
current_state)}`.  When the raw callback's result is not a mapping the
dict-unpacking itself raises `TypeError`; when it is, the raw fields are
merged over the `instructions` entry (raw keys win). -/
def WorkerConfig.get_state_fn (w : WorkerConfig)
    (function_result : Option FunctionResult) (current_state : Option JVal) :
    Except PyExn JVal :=
  match w.get_state_fn_raw function_result current_state with
  | .obj fs =>
    .ok (.obj (fs.foldl (fun d p => dictInsert p.1 p.2 d)
                [("instructions", .str w.instruction)]))
  | _ => .error (.typeError "argument after ** must be a mapping")

/-- The serialization loop of `utils.create_workers` (source lines 188–195).
Source line 194 writes `[f.get_function_def() for f in worker.action_space]`,
but `worker.action_space` is a dict, so the comprehension iterates its *keys*
— strings — and `f.get_function_def()` raises `AttributeError` on the first
key of any non-empty action space, before the request is issued.  An empty
action space serializes to the empty list. -/
def serializeWorkers : List WorkerConfig → Except PyExn (List JVal)
  | [] => .ok []
  | w :: rest =>
    if w.action_space.isEmpty then
      match serializeWorkers rest with
      | .error e => .error e
      | .ok tail =>
        .ok (.obj [("id", .str w.id),
                   ("description", .str w.worker_description),
                   ("instruction", .str w.instruction),
                   ("action_space", .arr [])] :: tail)
    else
      .error (.attributeError "'str' object has no attribute 'get_function_def'")

/-- The requests `utils.create_workers` issues: none when the serialization
loop raises, otherwise the single batch POST to `/v2/workers`. -/
def create_workers_requests (base_url api_key : String)
    (workers : List WorkerConfig) : List HttpRequest :=
  match serializeWorkers workers with
  | .error _ => []
  | .ok worker_configs =>
    [postRequest base_url api_key "/v2/workers"
      (.obj [("workers", .arr worker_configs)])]

/-- The result of `utils.create_workers`: the serialization error if the loop
raises, otherwise the classified response with its `id` extracted. -/
def create_workers_result (workers : List WorkerConfig)
    (resp : HttpResponse) : Except PyExn JVal :=
  match serializeWorkers workers with
  | .error e => .error e
  | .ok _ =>
    match postResult resp with
    | .error e => .error e
    | .ok v =>
      match v.pyGet "id" .null with
      | none => .error (.attributeError "get")
      | some map_id =>
        if map_id.truthy then .ok map_id
        else .error (.apiError "Failed to create worker: missing id in response" none)

/-- `utils.create_workers`: serializes every worker (possibly raising before
any request, see `serializeWorkers`) and posts the batch to `/v2/workers`,
then extracts the map id.  Returns the requests issued together with the
result. -/
def create_workers (base_url api_key : String) (workers : List WorkerConfig)
    (resp : HttpResponse) : List HttpRequest × Except PyExn JVal :=
  (create_workers_requests base_url api_key workers,
   create_workers_result workers resp)

/-- The mutable attributes of `agent.Agent` that the orchestration loop reads
and writes.  `map_id = none` and `worker_states = none` model the attributes
`_map_id` and `worker_states` not existing yet (they are first assigned in
`compile`); `current_worker_id` is a Python value (`.null` before `compile`,
and `GO_TO` may store any value from `action_args`).  The session's `uuid`
identity is not modelled (it is nondeterministic and no claim depends on it);
`session_function_result` is the session's pending `FunctionResult`. -/
structure Agent where
  workers : List (String × WorkerConfig)
  current_worker_id : JVal
  map_id : Option JVal
  worker_states : Option (List (String × JVal))
  agent_state : JVal
  get_agent_state_fn : Option FunctionResult → JVal → JVal
  session_function_result : Option FunctionResult

/-- `Agent.__init__`'s worker dictionary: `{w.id: w for w in workers}`. -/
def mkWorkersDict (ws : List WorkerConfig) : List (String × WorkerConfig) :=
  ws.foldl (fun d w => dictInsert w.id w d) []

/-- `Agent.reset` / `Session.reset`: a fresh session id (not modelled) and a
cleared pending function result. -/
def Agent.reset (a : Agent) : Agent :=
  { a with session_function_result := none }

/-- `Agent.add_worker`: `self.workers[worker_config.id] = worker_config`. -/
def Agent.add_worker (a : Agent) (worker_config : WorkerConfig) : Agent :=
  { a with workers := dictInsert worker_config.id worker_config a.workers }

/-- The outcome of an `Agent` method call: the attribute values after the call
returned or raised (`state`), and the result (`.error` models a raise). -/
structure AgentOutcome (α : Type) where
  state : Agent
  result : Except PyExn α

/-- The worker-state initialization loop in `Agent.compile`: invoke each
wrapped state callback with `(None, None)`, reject non-dict snapshots (dead in
fact, since the wrapped callback already raises `TypeError` on those), and
store each snapshot under the worker's id. -/
def initWorkerStates : List WorkerConfig → List (String × JVal) →
    Except PyExn (List (String × JVal))
  | [], acc => .ok acc
  | w :: rest, acc =>
    match w.get_state_fn none none with
    | .error e => .error e
    | .ok initial_state =>
      if initial_state.isObj then
        initWorkerStates rest (dictInsert w.id initial_state acc)
      else
        .error (.validationError
          (.str ("Worker " ++ w.id ++ " state function must return a dictionary")))

/-- `Agent.compile`, with the worker-registration call's HTTP response as a
parameter.  The second component is the list of HTTP requests the call
issued (empty when `create_workers` raises before posting), so that
atomicity on failure can be stated. -/
def Agent.compile (a : Agent) (base_url api_key : String)
    (resp : HttpResponse) : AgentOutcome JVal × List HttpRequest :=
  match a.workers with
  | [] => (⟨a, .error (.valueError "No workers added to the agent")⟩, [])
  | (k, w) :: rest =>
    let workers_list := ((k, w) :: rest).map (·.2)
    let reqs := (create_workers base_url api_key workers_list resp).1
    match (create_workers base_url api_key workers_list resp).2 with
    | .error e => (⟨a, .error e⟩, reqs)
    | .ok mid =>
      let a₁ : Agent :=
        { a with map_id := some mid, current_worker_id := .str w.id }
      match initWorkerStates workers_list [] with
      | .error e => (⟨a₁, .error e⟩, reqs)
      | .ok worker_states =>
        (⟨{ a₁ with worker_states := some worker_states }, .ok mid⟩, reqs)

/-- The tail shared by every successful `Agent.step` branch (source line 404):
recompute the agent-level state from the pending function result and the
previous agent-level state. -/
def stepFinish (a : Agent) : AgentOutcome Unit :=
  ⟨{ a with agent_state := a.get_agent_state_fn a.session_function_result a.agent_state },
   .ok ()⟩

/-- `Agent.step`, with the remote decision (`action_response`) as a parameter.
The function first performs `_get_action`'s payload reads in source order
(`self._map_id`, `self.worker_states[self.current_worker_id]`,
`self.workers[self.current_worker_id]`) — these are the reads that fail on the
step after an invalid `GO_TO` — and then dispatches on the action type exactly
as the source does, including the logging subscripts
`action_args["fn_name"]` / `action_args["args"]` that run before the
emptiness guard. -/
def Agent.step (a : Agent) (action_response : ActionResponse) : AgentOutcome Unit :=
  match a.map_id with
  | none => ⟨a, .error (.attributeError "'Agent' object has no attribute '_map_id'")⟩
  | some _ =>
  match a.worker_states with
  | none => ⟨a, .error (.attributeError "'Agent' object has no attribute 'worker_states'")⟩
  | some wstates =>
  match a.current_worker_id with
  | .str cwid =>
    (match dictGet? wstates cwid with
     | none => ⟨a, .error (.keyError (.str cwid))⟩
     | some env =>
     match dictGet? a.workers cwid with
     | none => ⟨a, .error (.keyError (.str cwid))⟩
     | some worker =>
     match action_response.action_type with
     | .CALL_FUNCTION | .CONTINUE_FUNCTION =>
       (match action_response.action_args with
        | none => ⟨a, .error (.typeError "'NoneType' object is not subscriptable")⟩
        | some args =>
          match dictGet? args "fn_name" with
          | none => ⟨a, .error (.keyError (.str "fn_name"))⟩
          | some fn_name =>
          match dictGet? args "args" with
          | none => ⟨a, .error (.keyError (.str "args"))⟩
          | some _ =>
          if args.isEmpty then
            ⟨a, .error (.valueError "No function information provided by GAME")⟩
          else
            match pyDictGetKey worker.action_space fn_name with
            | none => ⟨a, .error (.keyError fn_name)⟩
            | some f =>
              let fr := f.execute args
              let a₁ := { a with session_function_result := some fr }
              match worker.get_state_fn (some fr) (some env) with
              | .error e => ⟨a₁, .error e⟩
              | .ok updated_worker_state =>
                stepFinish { a₁ with
                  worker_states := some (dictInsert cwid updated_worker_state wstates) })
     | .WAIT => stepFinish a
     | .GO_TO =>
       (match action_response.action_args with
        | none => ⟨a, .error (.valueError "No location information provided by GAME")⟩
        | some args =>
          if args.isEmpty then
            ⟨a, .error (.valueError "No location information provided by GAME")⟩
          else
            match dictGet? args "location_id" with
            | none => ⟨a, .error (.keyError (.str "location_id"))⟩
            | some next_worker =>
              stepFinish { a with current_worker_id := next_worker })
     | .unrecognized v =>
       ⟨a, .error (.valueError ("Unknown action type: " ++ v))⟩)
  | other => ⟨a, .error (.keyError other)⟩

/-- The snapshot `compile` stores for a worker whose callback succeeds: the
value of the wrapped state callback at `(None, None)`. -/
def initialSnapshot (w : WorkerConfig) : JVal :=
  match w.get_state_fn none none with
  | .ok v => v
  | .error _ => .null

/-! ## Concrete fixtures (used by witnesses and counterexamples) -/

/-- A concrete worker whose state callback returns a mapping.  Its action
space is empty: due to the dict-iteration slip in `create_workers` (source
line 194), only agents whose workers all have empty action spaces can get
past registration, so this is the shape a compiled agent can actually have. -/
def workerA : WorkerConfig :=
  { id := "worker_a"
    worker_description := "the first worker"
    instruction := "be helpful"
    get_state_fn_raw := fun _ _ => .obj [("status", .str "ready")]
    action_space := mkActionSpace [] }

/-- A second concrete worker, also with an empty action space. -/
def workerB : WorkerConfig :=
  { id := "worker_b"
    worker_description := "the second worker"
    instruction := "be fast"
    get_state_fn_raw := fun _ _ => .obj [("status", .str "idle")]
    action_space := mkActionSpace [] }

/-- A concrete action-space function, for exercising the serialization
failure of `create_workers` on a non-empty action space. -/
def echoFunction : Function :=
  { fn_name := "echo"
    fn_description := "echoes its input"
    args := []
    execute := fun _ =>
      { action_id := "a1", action_status := "DONE",
        feedback_message := "ok", info := [] } }

/-- A worker carrying one function: its non-empty action space makes the
source's `create_workers` raise `AttributeError` at serialization. -/
def workerF : WorkerConfig :=
  { id := "worker_f"
    worker_description := "a worker with a function"
    instruction := "use echo"
    get_state_fn_raw := fun _ _ => .obj [("status", .str "ready")]
    action_space := mkActionSpace [echoFunction] }

/-- An agent holding only `workerF` (non-empty action space). -/
def agentF : Agent :=
  { workers := [("worker_f", workerF)]
    current_worker_id := .null
    map_id := none
    worker_states := none
    agent_state := .obj []
    get_agent_state_fn := fun _ s => s
    session_function_result := none }

/-- A freshly constructed agent holding only `workerA`. -/
def agentA : Agent :=
  { workers := mkWorkersDict [workerA]
    current_worker_id := .null
    map_id := none
    worker_states := none
    agent_state := .obj [("status", .str "ready")]
    get_agent_state_fn := fun _ s => s
    session_function_result := none }

/-- A successful worker-registration response carrying map id `"map_1"`. -/
def mapResponse : HttpResponse :=
  ⟨200, "x", some (.obj [("data", .obj [("id", .str "map_1")])])⟩

/-- `agentA` after a successful `compile`. -/
def compiledA : Agent :=
  ((agentA.compile "https://api.virtuals.io" "key" mapResponse).1).state

/-- A freshly constructed agent holding `workerA` and `workerB`, in that
insertion order. -/
def agentAB : Agent :=
  { workers := [("worker_a", workerA), ("worker_b", workerB)]
    current_worker_id := .null
    map_id := none
    worker_states := none
    agent_state := .obj []
    get_agent_state_fn := fun _ s => s
    session_function_result := none }

/-- A worker whose raw state callback returns a mapping that itself carries an
`"instructions"` key, overriding the configured instruction in the merge. -/
def workerOvr : WorkerConfig :=
  { id := "w_ovr"
    worker_description := "overrides the instructions entry"
    instruction := "base instruction"
    get_state_fn_raw := fun _ _ => .obj [("instructions", .str "override")]
    action_space := [] }

/-- An agent holding only `workerOvr`. -/
def agentOvr : Agent :=
  { workers := [("w_ovr", workerOvr)]
    current_worker_id := .null
    map_id := none
    worker_states := none
    agent_state := .obj []
    get_agent_state_fn := fun _ s => s
    session_function_result := none }

/-- A worker whose raw state callback returns a non-mapping (a string). -/
def workerBadState : WorkerConfig :=
  { id := "w_bad"
    worker_description := "returns a non-mapping state"
    instruction := "irrelevant"
    get_state_fn_raw := fun _ _ => .str "Not a dictionary"
    action_space := [] }

/-- An agent holding only `workerBadState`. -/
def agentBadState : Agent :=
  { workers := [("w_bad", workerBadState)]
    current_worker_id := .null
    map_id := none
    worker_states := none
    agent_state := .obj []
    get_agent_state_fn := fun _ s => s
    session_function_result := none }

/-! ## Helpers for stating the claims -/

/-- Whether `p` is an initial segment of `s` (over characters). -/
def charsStartWith : List Char → List Char → Bool
  | [], _ => true
  | _ :: _, [] => false
  | c :: p, d :: s => c == d && charsStartWith p s

/-- Whether `p` occurs as a contiguous run inside `s`. -/
def charsContain (p : List Char) : List Char → Bool
  | [] => p.isEmpty
  | d :: s => charsStartWith p (d :: s) || charsContain p s

/-- Case-insensitive substring test on strings. -/
def strContainsCI (s pat : String) : Bool :=
  charsContain (pat.toList.map Char.toLower) (s.toList.map Char.toLower)

/-- A lookup that succeeds forces the dictionary to be non-empty. -/
theorem dictGet?_ne_nil {α : Type} {d : List (String × α)} {k : String} {v : α}
    (h : dictGet? d k = some v) : d.isEmpty = false := by
  cases d with
  | nil => simp [dictGet?] at h
  | cons p t => rfl

/-! ## C5–C8: the transport layer -/

/-- C5: `post` classifies responses as the claim states: 401 is
`AuthenticationError`; 400 is `ValidationError` carrying `error.message`
(default `"Invalid request"` when the `error` or `message` field is absent);
429 is `APIError` with status 429; >= 500 is `APIError` with that status; and
a 200 response whose body fails to parse as JSON is an `APIError` whose
message contains `"invalid json"` case-insensitively. -/
theorem post_error_classification
    (base_url api_key endpoint : String) (data : JVal) (resp : HttpResponse) :
    (resp.status_code = 401 →
      (post base_url api_key endpoint data resp).2 =
        .error (.authenticationError "Invalid API key")) ∧
    (∀ fs efs m, resp.status_code = 400 → resp.json = some (.obj fs) →
      dictGet? fs "error" = some (.obj efs) →
      dictGet? efs "message" = some m →
      (post base_url api_key endpoint data resp).2 = .error (.validationError m)) ∧
    (∀ fs, resp.status_code = 400 → resp.json = some (.obj fs) →
      dictGet? fs "error" = none →
      (post base_url api_key endpoint data resp).2 =
        .error (.validationError (.str "Invalid request"))) ∧
    (∀ fs efs, resp.status_code = 400 → resp.json = some (.obj fs) →
      dictGet? fs "error" = some (.obj efs) →
      dictGet? efs "message" = none →
      (post base_url api_key endpoint data resp).2 =
        .error (.validationError (.str "Invalid request"))) ∧
    (resp.status_code = 429 →
      (post base_url api_key endpoint data resp).2 =
        .error (.apiError "Rate limit exceeded" (some 429))) ∧
    (resp.status_code ≥ 500 →
      (post base_url api_key endpoint data resp).2 =
        .error (.apiError "Server error" (some resp.status_code))) ∧
    (resp.status_code = 200 → resp.text ≠ "" → resp.json = none →
      ∃ msg, (post base_url api_key endpoint data resp).2 =
          .error (.apiError msg none) ∧
        strContainsCI msg "invalid json" = true) := by
  refine ⟨?_, ?_, ?_, ?_, ?_, ?_, ?_⟩
  · intro h; simp [post, postResult, h]
  · intro fs efs m h hj he hm
    simp [post, postResult, h, hj, JVal.pyGet, he, hm]
  · intro fs h hj he
    simp only [dictGet?] at he
    simp [post, postResult, h, hj, JVal.pyGet, dictGet?, he]
  · intro fs efs h hj he hm
    simp [post, postResult, h, hj, JVal.pyGet, he, hm]
  · intro h; simp [post, postResult, h]
  · intro h
    have h1 : resp.status_code ≠ 401 := by omega
    have h2 : resp.status_code ≠ 400 := by omega
    have h3 : resp.status_code ≠ 429 := by omega
    simp [post, postResult, h1, h2, h3, h]
  · intro h ht hj
    refine ⟨"Invalid JSON response", ?_, by decide⟩
    simp [post, postResult, h, ht, hj]

/-- Witness for C5: each classification exercised at a concrete response. -/
theorem post_error_classification_witness :
    (post "b" "k" "/e" .null ⟨401, "", none⟩).2 =
      .error (.authenticationError "Invalid API key") ∧
    (post "b" "k" "/e" .null
        ⟨400, "x", some (.obj [("error", .obj [("message", .str "bad name")])])⟩).2 =
      .error (.validationError (.str "bad name")) ∧
    (post "b" "k" "/e" .null ⟨400, "x", some (.obj [])⟩).2 =
      .error (.validationError (.str "Invalid request")) ∧
    (post "b" "k" "/e" .null ⟨400, "x", some (.obj [("error", .obj [])])⟩).2 =
      .error (.validationError (.str "Invalid request")) ∧
    (post "b" "k" "/e" .null ⟨429, "", none⟩).2 =
      .error (.apiError "Rate limit exceeded" (some 429)) ∧
    (post "b" "k" "/e" .null ⟨503, "", none⟩).2 =
      .error (.apiError "Server error" (some 503)) ∧
    (∃ msg, (post "b" "k" "/e" .null ⟨200, "not json", none⟩).2 =
        .error (.apiError msg none) ∧ strContainsCI msg "invalid json" = true) := by
  refine ⟨(post_error_classification "b" "k" "/e" .null ⟨401, "", none⟩).1 rfl,
    (post_error_classification "b" "k" "/e" .null
        ⟨400, "x", some (.obj [("error", .obj [("message", .str "bad name")])])⟩).2.1
      _ _ _ rfl rfl rfl rfl,
    (post_error_classification "b" "k" "/e" .null ⟨400, "x", some (.obj [])⟩).2.2.1
      _ rfl rfl rfl,
    (post_error_classification "b" "k" "/e" .null
        ⟨400, "x", some (.obj [("error", .obj [])])⟩).2.2.2.1 _ _ rfl rfl rfl rfl,
    (post_error_classification "b" "k" "/e" .null ⟨429, "", none⟩).2.2.2.2.1 rfl,
    (post_error_classification "b" "k" "/e" .null ⟨503, "", none⟩).2.2.2.2.2.1
      (by decide),
    (post_error_classification "b" "k" "/e" .null
        ⟨200, "not json", none⟩).2.2.2.2.2.2 rfl (by decide) rfl⟩

/-- C6 counterexample: a 403 response with a JSON body does not raise — `post`
returns the body's `data` field as if the call had succeeded, refuting the
claim that unclassified non-200/204 statuses raise a generic `APIError`. -/
theorem post_403_returns_data :
    (post "https://api.virtuals.io" "k" "/v2/agents" .null
      ⟨403, "x", some (.obj [("data", .obj [("k", .str "v")])])⟩).2 =
      .ok (.obj [("k", .str "v")]) := by
  rfl

/-- C6 amended: for every status not specifically classified (not 400, 401,
429, nor >= 500 — e.g. 403 or 404), `post` falls through to the success path:
an empty body yields an empty mapping, a JSON object body yields its `data`
field (empty mapping when absent); no error is raised for the status. -/
theorem post_unclassified_status (base_url api_key endpoint : String)
    (data : JVal) (resp : HttpResponse)
    (h1 : resp.status_code ≠ 400) (h2 : resp.status_code ≠ 401)
    (h3 : resp.status_code ≠ 429) (h4 : resp.status_code < 500) :
    (resp.text = "" →
      (post base_url api_key endpoint data resp).2 = .ok (.obj [])) ∧
    (∀ fs d, resp.text ≠ "" → resp.json = some (.obj fs) →
      dictGet? fs "data" = some d →
      (post base_url api_key endpoint data resp).2 = .ok d) ∧
    (∀ fs, resp.text ≠ "" → resp.json = some (.obj fs) →
      dictGet? fs "data" = none →
      (post base_url api_key endpoint data resp).2 = .ok (.obj [])) := by
  have h5 : ¬ resp.status_code ≥ 500 := by omega
  refine ⟨?_, ?_, ?_⟩
  · intro ht; simp [post, postResult, h1, h2, h3, h5, ht]
  · intro fs d ht hj hd
    simp [post, postResult, h1, h2, h3, h5, ht, hj, JVal.pyGet, hd]
  · intro fs ht hj hd
    simp only [dictGet?] at hd
    simp [post, postResult, h1, h2, h3, h5, ht, hj, JVal.pyGet, dictGet?, hd]

/-- Witness for C6 (amended): a 403 exercises all three fall-through shapes. -/
theorem post_unclassified_status_witness :
    (post "b" "k" "/e" .null ⟨403, "", none⟩).2 = .ok (.obj []) ∧
    (post "b" "k" "/e" .null
        ⟨404, "x", some (.obj [("data", .str "payload")])⟩).2 = .ok (.str "payload") ∧
    (post "b" "k" "/e" .null ⟨403, "x", some (.obj [])⟩).2 = .ok (.obj []) := by
  refine ⟨(post_unclassified_status "b" "k" "/e" .null ⟨403, "", none⟩
      (by decide) (by decide) (by decide) (by decide)).1 rfl,
    (post_unclassified_status "b" "k" "/e" .null
        ⟨404, "x", some (.obj [("data", .str "payload")])⟩
      (by decide) (by decide) (by decide) (by decide)).2.1 _ _ (by decide) rfl rfl,
    (post_unclassified_status "b" "k" "/e" .null ⟨403, "x", some (.obj [])⟩
      (by decide) (by decide) (by decide) (by decide)).2.2 _ (by decide) rfl rfl⟩

/-- C7 counterexample: `post` issues exactly one request, straight to the
target endpoint, with the raw API key as the bearer value — there is no
prior token-exchange call (no request to `/api/accesses/tokens`) and the
`Authorization` header carries the static key itself, not an access token. -/
theorem post_no_token_exchange :
    ((post "https://api.virtuals.io" "k" "/v2/agents" .null ⟨200, "", none⟩).1.map
        (fun r => r.url)) = ["https://api.virtuals.io/v2/agents"] ∧
    ((post "https://api.virtuals.io" "k" "/v2/agents" .null ⟨200, "", none⟩).1.map
        (fun r => r.headers)) = [[("Authorization", "Bearer k")]] := by
  exact ⟨rfl, rfl⟩

/-- C7 amended: every call through the transport layer issues exactly one
HTTP request, to `base_url ++ endpoint`, whose only header is
`Authorization: Bearer <api_key>` with the raw static API key as the bearer
value; no token-exchange request is ever issued by this layer. -/
theorem post_requests_shape (base_url api_key endpoint : String) (data : JVal)
    (resp : HttpResponse) :
    (post base_url api_key endpoint data resp).1 =
      [{ url := base_url ++ endpoint
         headers := [("Authorization", "Bearer " ++ api_key)]
         body := data }] := by
  rfl

/-- C8: `create_agent` rejects a non-string or empty/whitespace name with
`ValidationError` before issuing any request; for a non-empty name it issues
the POST to the agent endpoint and returns the response's `id` field verbatim,
raising an `APIError` mentioning a missing id when that field is absent or
falsy. -/
theorem create_agent_spec (base_url api_key description goal : String)
    (name : Option String) (resp : HttpResponse) :
    (name = none →
      create_agent base_url api_key name description goal resp =
        ([], .error (.validationError (.str "Name cannot be empty")))) ∧
    (∀ n, name = some n → isBlank n = true →
      create_agent base_url api_key name description goal resp =
        ([], .error (.validationError (.str "Name cannot be empty")))) ∧
    (∀ n, name = some n → isBlank n = false →
      ((create_agent base_url api_key name description goal resp).1.map
          (fun r => r.url) = [base_url ++ "/v2/agents"]) ∧
      (∀ v aid,
        (post base_url api_key "/v2/agents"
          (.obj [("name", .str n), ("description", .str description),
                 ("goal", .str goal)]) resp).2 = .ok v →
        v.pyGet "id" .null = some aid →
        (aid.truthy = true →
          (create_agent base_url api_key name description goal resp).2 = .ok aid) ∧
        (aid.truthy = false →
          (create_agent base_url api_key name description goal resp).2 =
            .error (.apiError "Failed to create agent: missing id in response" none) ∧
          strContainsCI "Failed to create agent: missing id in response"
            "missing id" = true))) := by
  refine ⟨?_, ?_, ?_⟩
  · intro h; simp [create_agent, h]
  · intro n hn ht; simp [create_agent, hn, ht]
  · intro n hn ht
    constructor
    · cases hres : postResult resp with
      | error e => simp [create_agent, hn, ht, post, hres, postRequest]
      | ok v =>
        cases hid : v.pyGet "id" .null with
        | none => simp [create_agent, hn, ht, post, hres, hid, postRequest]
        | some aid =>
          cases htru : aid.truthy with
          | true => simp [create_agent, hn, ht, post, hres, hid, htru, postRequest]
          | false => simp [create_agent, hn, ht, post, hres, hid, htru, postRequest]
    · intro v aid hpost hid
      simp only [post] at hpost
      constructor
      · intro htru
        simp [create_agent, hn, ht, post, hpost, hid, htru]
      · intro htru
        refine ⟨?_, by decide⟩
        simp [create_agent, hn, ht, post, hpost, hid, htru]

/-- Witness for C8: a non-string name and a whitespace name are rejected with
no request issued; a real name posts to the agent endpoint and either returns
the id or reports it missing. -/
theorem create_agent_spec_witness :
    (create_agent "b" "k" none "d" "g" ⟨200, "", none⟩ =
      ([], .error (.validationError (.str "Name cannot be empty")))) ∧
    (create_agent "b" "k" (some "  ") "d" "g" ⟨200, "", none⟩ =
      ([], .error (.validationError (.str "Name cannot be empty")))) ∧
    ((create_agent "b" "k" (some "Bot") "d" "g"
        ⟨200, "x", some (.obj [("data", .obj [("id", .str "agent_1")])])⟩).1.map
      (fun r => r.url) = ["b/v2/agents"]) ∧
    ((create_agent "b" "k" (some "Bot") "d" "g"
        ⟨200, "x", some (.obj [("data", .obj [("id", .str "agent_1")])])⟩).2 =
      .ok (.str "agent_1")) ∧
    ((create_agent "b" "k" (some "Bot") "d" "g"
        ⟨200, "x", some (.obj [("data", .obj [])])⟩).2 =
      .error (.apiError "Failed to create agent: missing id in response" none)) := by
  refine ⟨(create_agent_spec "b" "k" "d" "g" none ⟨200, "", none⟩).1 rfl,
    (create_agent_spec "b" "k" "d" "g" (some "  ") ⟨200, "", none⟩).2.1 _ rfl
      (by decide),
    ((create_agent_spec "b" "k" "d" "g" (some "Bot")
        ⟨200, "x", some (.obj [("data", .obj [("id", .str "agent_1")])])⟩).2.2 _
      rfl (by decide)).1,
    (((create_agent_spec "b" "k" "d" "g" (some "Bot")
        ⟨200, "x", some (.obj [("data", .obj [("id", .str "agent_1")])])⟩).2.2 _
      rfl (by decide)).2 _ _ rfl rfl).1 rfl,
    ((((create_agent_spec "b" "k" "d" "g" (some "Bot")
        ⟨200, "x", some (.obj [("data", .obj [])])⟩).2.2 _
      rfl (by decide)).2 _ _ rfl rfl).2 rfl).1⟩

/-! ## Dictionary lemmas -/

/-- Inserting a fresh key appends it. -/
theorem dictInsert_fresh {α : Type} {d : List (String × α)} {k : String} {v : α}
    (h : d.any (fun p => p.1 = k) = false) :
    dictInsert k v d = d ++ [(k, v)] := by
  unfold dictInsert
  simp [h]

/-- Lookup at a matching head. -/
theorem dictGet?_cons_pos {α : Type} (p : String × α) (t : List (String × α))
    (key : String) (h : p.1 = key) : dictGet? (p :: t) key = some p.2 := by
  have hf : List.find? (fun q => q.1 = key) (p :: t) = some p :=
    List.find?_cons_of_pos _ (by simp [h])
  simp [dictGet?, hf]

/-- Lookup past a non-matching head. -/
theorem dictGet?_cons_neg {α : Type} (p : String × α) (t : List (String × α))
    (key : String) (h : ¬ p.1 = key) : dictGet? (p :: t) key = dictGet? t key := by
  have hf : List.find? (fun q => q.1 = key) (p :: t) =
      List.find? (fun q => q.1 = key) t :=
    List.find?_cons_of_neg _ (by simp [h])
  simp [dictGet?, hf]

/-- Lookup distributes over append when the left part hits. -/
theorem dictGet?_append_left {α : Type} (d l : List (String × α)) (key : String)
    (x : α) (h : dictGet? d key = some x) : dictGet? (d ++ l) key = some x := by
  simp only [dictGet?] at h ⊢
  cases hf : List.find? (fun p => p.1 = key) d with
  | none => rw [hf] at h; simp at h
  | some q =>
    rw [hf] at h
    rw [List.find?_append, hf]
    simpa [Option.or] using h

/-- Lookup distributes over append when the left part misses. -/
theorem dictGet?_append_right {α : Type} (d l : List (String × α)) (key : String)
    (h : dictGet? d key = none) : dictGet? (d ++ l) key = dictGet? l key := by
  simp only [dictGet?] at h ⊢
  cases hf : List.find? (fun p => p.1 = key) d with
  | none => rw [List.find?_append, hf]; simp [Option.or]
  | some q => rw [hf] at h; simp at h

/-- The in-place update pass of `dictInsert` leaves other keys' lookups
unchanged. -/
theorem dictGet?_map_replace {α : Type} {k : String} (v : α) {key : String}
    (hne : k ≠ key) :
    ∀ t : List (String × α),
    dictGet? (t.map (fun p => if p.1 = k then (k, v) else p)) key =
      dictGet? t key
  | [] => rfl
  | p :: t => by
    by_cases hp : p.1 = k
    · rw [List.map_cons, if_pos hp,
        dictGet?_cons_neg ((k, v)) _ key hne,
        dictGet?_cons_neg p t key (fun hk => hne (hp ▸ hk))]
      exact dictGet?_map_replace v hne t
    · rw [List.map_cons, if_neg hp]
      by_cases hk : p.1 = key
      · rw [dictGet?_cons_pos _ _ _ hk, dictGet?_cons_pos _ _ _ hk]
      · rw [dictGet?_cons_neg _ _ _ hk, dictGet?_cons_neg _ _ _ hk]
        exact dictGet?_map_replace v hne t

/-- The in-place update pass of `dictInsert` keeps the updated key present. -/
theorem dictGet?_map_replace_self {α : Type} {k : String} (v : α) :
    ∀ t : List (String × α),
    (dictGet? (t.map (fun p => if p.1 = k then (k, v) else p)) k).isSome =
      (dictGet? t k).isSome
  | [] => rfl
  | p :: t => by
    by_cases hp : p.1 = k
    · rw [List.map_cons, if_pos hp, dictGet?_cons_pos ((k, v)) _ k rfl,
        dictGet?_cons_pos p t k hp]
      rfl
    · rw [List.map_cons, if_neg hp, dictGet?_cons_neg p _ k hp,
        dictGet?_cons_neg p t k hp]
      exact dictGet?_map_replace_self v t

/-- Inserting one key does not change the lookup of another. -/
theorem dictGet?_insert_ne {α : Type} (d : List (String × α)) {k : String}
    (v : α) {key : String} (hne : k ≠ key) :
    dictGet? (dictInsert k v d) key = dictGet? d key := by
  unfold dictInsert
  split
  · exact dictGet?_map_replace v hne d
  · cases hfind : dictGet? d key with
    | some x => exact dictGet?_append_left d [(k, v)] key x hfind
    | none =>
      have h1 := dictGet?_append_right d [(k, v)] key hfind
      have h2 := dictGet?_cons_neg ((k, v)) ([] : List (String × α)) key hne
      rw [h1, h2]
      rfl

/-- Looking up an existing key survives any insertion. -/
theorem dictGet?_insert_isSome {α : Type} (d : List (String × α)) (k : String)
    (v : α) (key : String) (h : (dictGet? d key).isSome = true) :
    (dictGet? (dictInsert k v d) key).isSome = true := by
  by_cases hk : k = key
  · subst hk
    unfold dictInsert
    split
    · rw [dictGet?_map_replace_self v d]; exact h
    · cases hfind : dictGet? d k with
      | some x => rw [dictGet?_append_left d _ k x hfind]; rfl
      | none => rw [hfind] at h; simp at h
  · rw [dictGet?_insert_ne d v hk]
    exact h

/-- Folding fresh-keyed insertions over a dictionary does not change the
lookup of a key none of the inserted pairs carries. -/
theorem foldl_dictInsert_get (fs : List (String × JVal)) :
    ∀ (d : List (String × JVal)) (key : String),
    (∀ p ∈ fs, p.1 ≠ key) →
    dictGet? (fs.foldl (fun d p => dictInsert p.1 p.2 d) d) key =
      dictGet? d key := by
  induction fs with
  | nil => intro d key _; rfl
  | cons p t ih =>
    intro d key hk
    have hp : p.1 ≠ key := hk p (by simp)
    have ht : ∀ q ∈ t, q.1 ≠ key := fun q hq => hk q (by simp [hq])
    simp only [List.foldl_cons]
    rw [ih (dictInsert p.1 p.2 d) key ht, dictGet?_insert_ne d p.2 hp]

/-! ## C1–C3, C9: the step state machine -/

/-- C1: once the payload reads of `_get_action` succeed, a `GO_TO` action
whose `action_args` contain a `location_id` makes `step` succeed and set the
active worker id to that `location_id` — with no hypothesis that the id is a
key of the worker mapping (no membership validation happens at the
transition). -/
theorem step_goto_no_validation (a : Agent) (args : List (String × JVal))
    (loc mid : JVal) (wstates : List (String × JVal)) (cwid : String)
    (env : JVal) (w : WorkerConfig)
    (hmap : a.map_id = some mid)
    (hws : a.worker_states = some wstates)
    (hcw : a.current_worker_id = .str cwid)
    (henv : dictGet? wstates cwid = some env)
    (hw : dictGet? a.workers cwid = some w)
    (hloc : dictGet? args "location_id" = some loc) :
    (a.step ⟨.GO_TO, some args⟩).result = .ok () ∧
    (a.step ⟨.GO_TO, some args⟩).state.current_worker_id = loc := by
  have hne : args.isEmpty = false := dictGet?_ne_nil hloc
  constructor <;>
    simp [Agent.step, hmap, hws, hcw, henv, hw, hloc, hne, stepFinish]

/-- Witness for C1: a compiled one-worker agent moved to `"worker_b"`, an id
absent from its worker mapping. -/
theorem step_goto_no_validation_witness :
    ((compiledA.step ⟨.GO_TO, some [("location_id", .str "worker_b")]⟩).result
        = .ok () ∧
     (compiledA.step
        ⟨.GO_TO, some [("location_id", .str "worker_b")]⟩).state.current_worker_id
        = .str "worker_b") ∧
    (dictGet? compiledA.workers "worker_b").isNone = true := by
  exact ⟨step_goto_no_validation compiledA [("location_id", .str "worker_b")]
    (.str "worker_b") (.str "map_1")
    [("worker_a", .obj [("instructions", .str "be helpful"), ("status", .str "ready")])]
    "worker_a" (.obj [("instructions", .str "be helpful"), ("status", .str "ready")])
    workerA rfl rfl rfl rfl rfl rfl, rfl⟩

/-- C3: once the payload reads of `_get_action` succeed, an action response
whose type is none of the four recognized ones makes `step` raise an error
naming the unrecognized type, and every attribute of the agent — worker state
snapshots, agent-level state, active worker id, session's pending function
result — is unchanged. -/
theorem step_unknown_action (a : Agent) (v : String)
    (args : Option (List (String × JVal)))
    (mid : JVal) (wstates : List (String × JVal)) (cwid : String)
    (env : JVal) (w : WorkerConfig)
    (hmap : a.map_id = some mid)
    (hws : a.worker_states = some wstates)
    (hcw : a.current_worker_id = .str cwid)
    (henv : dictGet? wstates cwid = some env)
    (hw : dictGet? a.workers cwid = some w) :
    (a.step ⟨.unrecognized v, args⟩).result =
      .error (.valueError ("Unknown action type: " ++ v)) ∧
    (a.step ⟨.unrecognized v, args⟩).state = a := by
  constructor <;> simp [Agent.step, hmap, hws, hcw, henv, hw]

/-- Witness for C3: the compiled one-worker agent on an unrecognized type. -/
theorem step_unknown_action_witness :
    (compiledA.step ⟨.unrecognized "NEW_TYPE", none⟩).result =
      .error (.valueError "Unknown action type: NEW_TYPE") ∧
    (compiledA.step ⟨.unrecognized "NEW_TYPE", none⟩).state = compiledA := by
  exact step_unknown_action compiledA "NEW_TYPE" none (.str "map_1")
    [("worker_a", .obj [("instructions", .str "be helpful"), ("status", .str "ready")])]
    "worker_a" (.obj [("instructions", .str "be helpful"), ("status", .str "ready")])
    workerA rfl rfl rfl rfl rfl

/-- The wrapped state callback can only fail with the `TypeError` raised by
dict-unpacking a non-mapping. -/
theorem get_state_fn_error_shape (w : WorkerConfig) (fr : Option FunctionResult)
    (cs : Option JVal) (e : PyExn) (h : w.get_state_fn fr cs = .error e) :
    e = .typeError "argument after ** must be a mapping" := by
  unfold WorkerConfig.get_state_fn at h
  split at h
  · simp at h
  · simp only [Except.error.injEq] at h
    exact h.symm

/-- `CALL_FUNCTION` and `CONTINUE_FUNCTION` share one dispatch branch. -/
theorem step_call_continue_same (a : Agent)
    (args : Option (List (String × JVal))) :
    a.step ⟨.CONTINUE_FUNCTION, args⟩ = a.step ⟨.CALL_FUNCTION, args⟩ := rfl

/-- All facts about the `CALL_FUNCTION` dispatch branch needed below: it
preserves the worker mapping and the active worker id, and the emptiness
guard's `ValueError` is not among its possible results. -/
theorem step_call_props (a : Agent) (args : Option (List (String × JVal))) :
    (a.step ⟨.CALL_FUNCTION, args⟩).state.workers = a.workers ∧
    (a.step ⟨.CALL_FUNCTION, args⟩).state.current_worker_id =
      a.current_worker_id ∧
    (a.step ⟨.CALL_FUNCTION, args⟩).result ≠
      .error (.valueError "No function information provided by GAME") := by
  cases hm : a.map_id with
  | none => simp [Agent.step, hm]
  | some mid =>
  cases hws : a.worker_states with
  | none => simp [Agent.step, hm, hws]
  | some wst =>
  rcases hcw : a.current_worker_id with _ | b | n | cwid | es | fs
  case null => simp [Agent.step, hm, hws, hcw]
  case bool => simp [Agent.step, hm, hws, hcw]
  case num => simp [Agent.step, hm, hws, hcw]
  case arr => simp [Agent.step, hm, hws, hcw]
  case obj => simp [Agent.step, hm, hws, hcw]
  case str =>
  cases henv : dictGet? wst cwid with
  | none => simp [Agent.step, hm, hws, hcw, henv]
  | some env =>
  cases hw : dictGet? a.workers cwid with
  | none => simp [Agent.step, hm, hws, hcw, henv, hw]
  | some w =>
  cases args with
  | none => simp [Agent.step, hm, hws, hcw, henv, hw]
  | some l =>
  cases hfn : dictGet? l "fn_name" with
  | none => simp [Agent.step, hm, hws, hcw, henv, hw, hfn]
  | some fn =>
  have hne : l.isEmpty = false := dictGet?_ne_nil hfn
  cases hargs : dictGet? l "args" with
  | none => simp [Agent.step, hm, hws, hcw, henv, hw, hfn, hargs]
  | some x =>
  cases hsp : pyDictGetKey w.action_space fn with
  | none => simp [Agent.step, hm, hws, hcw, henv, hw, hfn, hargs, hne, hsp]
  | some f =>
  cases hst : w.get_state_fn (some (f.execute l)) (some env) with
  | error e =>
    have he := get_state_fn_error_shape w _ _ e hst
    simp [Agent.step, hm, hws, hcw, henv, hw, hfn, hargs, hne, hsp, hst, he]
  | ok upd =>
    simp [Agent.step, hm, hws, hcw, henv, hw, hfn, hargs, hne, hsp, hst,
      stepFinish]

/-- The `WAIT` branch preserves the worker mapping and the active worker. -/
theorem step_wait_props (a : Agent) (args : Option (List (String × JVal))) :
    (a.step ⟨.WAIT, args⟩).state.workers = a.workers ∧
    (a.step ⟨.WAIT, args⟩).state.current_worker_id = a.current_worker_id := by
  cases hm : a.map_id with
  | none => simp [Agent.step, hm]
  | some mid =>
  cases hws : a.worker_states with
  | none => simp [Agent.step, hm, hws]
  | some wst =>
  rcases hcw : a.current_worker_id with _ | b | n | cwid | es | fs
  case null => simp [Agent.step, hm, hws, hcw]
  case bool => simp [Agent.step, hm, hws, hcw]
  case num => simp [Agent.step, hm, hws, hcw]
  case arr => simp [Agent.step, hm, hws, hcw]
  case obj => simp [Agent.step, hm, hws, hcw]
  case str =>
  cases henv : dictGet? wst cwid with
  | none => simp [Agent.step, hm, hws, hcw, henv]
  | some env =>
  cases hw : dictGet? a.workers cwid with
  | none => simp [Agent.step, hm, hws, hcw, henv, hw]
  | some w => simp [Agent.step, hm, hws, hcw, henv, hw, stepFinish]

/-- The unrecognized-type branch preserves the worker mapping and the active
worker. -/
theorem step_unrecognized_props (a : Agent) (v : String)
    (args : Option (List (String × JVal))) :
    (a.step ⟨.unrecognized v, args⟩).state.workers = a.workers ∧
    (a.step ⟨.unrecognized v, args⟩).state.current_worker_id =
      a.current_worker_id := by
  cases hm : a.map_id with
  | none => simp [Agent.step, hm]
  | some mid =>
  cases hws : a.worker_states with
  | none => simp [Agent.step, hm, hws]
  | some wst =>
  rcases hcw : a.current_worker_id with _ | b | n | cwid | es | fs
  case null => simp [Agent.step, hm, hws, hcw]
  case bool => simp [Agent.step, hm, hws, hcw]
  case num => simp [Agent.step, hm, hws, hcw]
  case arr => simp [Agent.step, hm, hws, hcw]
  case obj => simp [Agent.step, hm, hws, hcw]
  case str =>
  cases henv : dictGet? wst cwid with
  | none => simp [Agent.step, hm, hws, hcw, henv]
  | some env =>
  cases hw : dictGet? a.workers cwid with
  | none => simp [Agent.step, hm, hws, hcw, henv, hw]
  | some w => simp [Agent.step, hm, hws, hcw, henv, hw]

/-- The `GO_TO` branch never touches the worker mapping (only the active
worker id). -/
theorem step_goto_preserves_workers (a : Agent)
    (args : Option (List (String × JVal))) :
    (a.step ⟨.GO_TO, args⟩).state.workers = a.workers := by
  cases hm : a.map_id with
  | none => simp [Agent.step, hm]
  | some mid =>
  cases hws : a.worker_states with
  | none => simp [Agent.step, hm, hws]
  | some wst =>
  rcases hcw : a.current_worker_id with _ | b | n | cwid | es | fs
  case null => simp [Agent.step, hm, hws, hcw]
  case bool => simp [Agent.step, hm, hws, hcw]
  case num => simp [Agent.step, hm, hws, hcw]
  case arr => simp [Agent.step, hm, hws, hcw]
  case obj => simp [Agent.step, hm, hws, hcw]
  case str =>
  cases henv : dictGet? wst cwid with
  | none => simp [Agent.step, hm, hws, hcw, henv]
  | some env =>
  cases hw : dictGet? a.workers cwid with
  | none => simp [Agent.step, hm, hws, hcw, henv, hw]
  | some w =>
  cases args with
  | none => simp [Agent.step, hm, hws, hcw, henv, hw]
  | some l =>
  cases hl : l.isEmpty with
  | true => simp [Agent.step, hm, hws, hcw, henv, hw, hl]
  | false =>
  cases hloc : dictGet? l "location_id" with
  | none => simp [Agent.step, hm, hws, hcw, henv, hw, hl, hloc]
  | some loc => simp [Agent.step, hm, hws, hcw, henv, hw, hl, hloc, stepFinish]

/-- `step` never touches the worker mapping, whatever the action response. -/
theorem step_preserves_workers (a : Agent) (r : ActionResponse) :
    (a.step r).state.workers = a.workers := by
  rcases r with ⟨ty, args⟩
  cases ty with
  | CALL_FUNCTION => exact (step_call_props a args).1
  | CONTINUE_FUNCTION =>
    rw [step_call_continue_same]
    exact (step_call_props a args).1
  | WAIT => exact (step_wait_props a args).1
  | GO_TO => exact step_goto_preserves_workers a args
  | unrecognized v => exact (step_unrecognized_props a v args).1

/-- Every branch of `step` other than `GO_TO` leaves the active worker id
unchanged. -/
theorem step_preserves_current_worker (a : Agent) (ty : ActionType)
    (args : Option (List (String × JVal))) (hty : ty ≠ .GO_TO) :
    (a.step ⟨ty, args⟩).state.current_worker_id = a.current_worker_id := by
  cases ty with
  | GO_TO => exact absurd rfl hty
  | CALL_FUNCTION => exact (step_call_props a args).2.1
  | CONTINUE_FUNCTION =>
    rw [step_call_continue_same]
    exact (step_call_props a args).2.1
  | WAIT => exact (step_wait_props a args).2
  | unrecognized v => exact (step_unrecognized_props a v args).2

/-- C9: in the `CALL_FUNCTION`/`CONTINUE_FUNCTION` branch the logging
subscripts run before the emptiness guard: absent (`None`) action-args raise
the `TypeError` of subscripting `None`, and empty action-args raise the
`KeyError` for `"fn_name"`; hence the guard's `ValueError` ("No function
information provided by GAME") is unreachable for every agent and every
action response. -/
theorem step_call_guard_unreachable (a : Agent) (ty : ActionType)
    (mid : JVal) (wstates : List (String × JVal)) (cwid : String)
    (env : JVal) (w : WorkerConfig)
    (hty : ty = .CALL_FUNCTION ∨ ty = .CONTINUE_FUNCTION)
    (hmap : a.map_id = some mid)
    (hws : a.worker_states = some wstates)
    (hcw : a.current_worker_id = .str cwid)
    (henv : dictGet? wstates cwid = some env)
    (hw : dictGet? a.workers cwid = some w) :
    ((a.step ⟨ty, none⟩).result =
      .error (.typeError "'NoneType' object is not subscriptable")) ∧
    ((a.step ⟨ty, some []⟩).result = .error (.keyError (.str "fn_name"))) ∧
    (∀ (a' : Agent) (args : Option (List (String × JVal))),
      (a'.step ⟨ty, args⟩).result ≠
        .error (.valueError "No function information provided by GAME")) := by
  rcases hty with rfl | rfl
  · refine ⟨?_, ?_, ?_⟩
    · simp [Agent.step, hmap, hws, hcw, henv, hw]
    · have hfe : dictGet? ([] : List (String × JVal)) "fn_name" = none := rfl
      simp [Agent.step, hmap, hws, hcw, henv, hw, hfe]
    · intro a' args
      exact (step_call_props a' args).2.2
  · refine ⟨?_, ?_, ?_⟩
    · rw [step_call_continue_same]
      simp [Agent.step, hmap, hws, hcw, henv, hw]
    · rw [step_call_continue_same]
      have hfe : dictGet? ([] : List (String × JVal)) "fn_name" = none := rfl
      simp [Agent.step, hmap, hws, hcw, henv, hw, hfe]
    · intro a' args
      rw [step_call_continue_same]
      exact (step_call_props a' args).2.2

/-- Witness for C9: the compiled one-worker agent, with absent and with empty
action-args. -/
theorem step_call_guard_unreachable_witness :
    ((compiledA.step ⟨.CALL_FUNCTION, none⟩).result =
      .error (.typeError "'NoneType' object is not subscriptable")) ∧
    ((compiledA.step ⟨.CALL_FUNCTION, some []⟩).result =
      .error (.keyError (.str "fn_name"))) ∧
    ((compiledA.step ⟨.CALL_FUNCTION, some []⟩).result ≠
      .error (.valueError "No function information provided by GAME")) := by
  refine ⟨(step_call_guard_unreachable compiledA .CALL_FUNCTION (.str "map_1")
      [("worker_a", .obj [("instructions", .str "be helpful"), ("status", .str "ready")])]
      "worker_a" (.obj [("instructions", .str "be helpful"), ("status", .str "ready")])
      workerA (Or.inl rfl) rfl rfl rfl rfl rfl).1,
    (step_call_guard_unreachable compiledA .CALL_FUNCTION (.str "map_1")
      [("worker_a", .obj [("instructions", .str "be helpful"), ("status", .str "ready")])]
      "worker_a" (.obj [("instructions", .str "be helpful"), ("status", .str "ready")])
      workerA (Or.inl rfl) rfl rfl rfl rfl rfl).2.1,
    (step_call_guard_unreachable compiledA .CALL_FUNCTION (.str "map_1")
      [("worker_a", .obj [("instructions", .str "be helpful"), ("status", .str "ready")])]
      "worker_a" (.obj [("instructions", .str "be helpful"), ("status", .str "ready")])
      workerA (Or.inl rfl) rfl rfl rfl rfl rfl).2.2 compiledA (some [])⟩

/-- C2 counterexample: after a `GO_TO` to `"worker_b"`, the compiled
one-worker agent's active worker id is `"worker_b"`, which is not a key of
its worker mapping — so `step` violates the claimed invariant. -/
theorem active_worker_invariant_cex :
    (compiledA.step
        ⟨.GO_TO, some [("location_id", .str "worker_b")]⟩).state.current_worker_id
      = .str "worker_b" ∧
    (pyDictGetKey
      (compiledA.step
        ⟨.GO_TO, some [("location_id", .str "worker_b")]⟩).state.workers
      (.str "worker_b")).isNone = true := ⟨rfl, rfl⟩

/-- C2 (amended): the membership invariant is established by a successful
`compile` and preserved by `reset`, by `add_worker`, and by every `step`
whose action type is not `GO_TO`; a `GO_TO` may break it by switching to an
id outside the worker mapping. -/
theorem active_worker_membership :
    (∀ (a : Agent) (b k : String) (resp : HttpResponse),
      (∀ p ∈ a.workers, p.1 = p.2.id) →
      (a.compile b k resp).1.result.isOk = true →
      (pyDictGetKey (a.compile b k resp).1.state.workers
        (a.compile b k resp).1.state.current_worker_id).isSome = true) ∧
    (∀ a : Agent, (a.reset).workers = a.workers ∧
      (a.reset).current_worker_id = a.current_worker_id) ∧
    (∀ (a : Agent) (w : WorkerConfig),
      (pyDictGetKey a.workers a.current_worker_id).isSome = true →
      (pyDictGetKey (a.add_worker w).workers
        (a.add_worker w).current_worker_id).isSome = true) ∧
    (∀ (a : Agent) (ty : ActionType) (args : Option (List (String × JVal))),
      ty ≠ .GO_TO →
      (pyDictGetKey a.workers a.current_worker_id).isSome = true →
      (pyDictGetKey (a.step ⟨ty, args⟩).state.workers
        (a.step ⟨ty, args⟩).state.current_worker_id).isSome = true) := by
  refine ⟨?_, ?_, ?_, ?_⟩
  · intro a b k resp hkeys hok
    cases hwk : a.workers with
    | nil => simp [Agent.compile, hwk, Except.isOk, Except.toBool] at hok
    | cons p rest =>
      obtain ⟨k₀, w₀⟩ := p
      cases hcw : (create_workers b k (w₀ :: rest.map (fun x => x.2)) resp).2 with
      | error e =>
        simp [Agent.compile, hwk, hcw, Except.isOk, Except.toBool] at hok
      | ok mid =>
        cases hinit : initWorkerStates (w₀ :: rest.map (fun x => x.2)) [] with
        | error e =>
          simp [Agent.compile, hwk, hcw, hinit, Except.isOk, Except.toBool] at hok
        | ok ws =>
          have hk0 : k₀ = w₀.id := hkeys (k₀, w₀) (by rw [hwk]; exact List.mem_cons_self _ _)
          simp only [Agent.compile, hwk, List.map_cons, hcw, hinit, pyDictGetKey]
          rw [dictGet?_cons_pos (k₀, w₀) rest w₀.id hk0]
          rfl
  · intro a
    exact ⟨rfl, rfl⟩
  · intro a w h
    cases hcw : a.current_worker_id with
    | str s =>
      rw [hcw] at h
      simp only [pyDictGetKey] at h ⊢
      simp only [Agent.add_worker, hcw]
      exact dictGet?_insert_isSome a.workers w.id w s h
    | null => rw [hcw] at h; simp [pyDictGetKey] at h
    | bool b => rw [hcw] at h; simp [pyDictGetKey] at h
    | num n => rw [hcw] at h; simp [pyDictGetKey] at h
    | arr es => rw [hcw] at h; simp [pyDictGetKey] at h
    | obj fs => rw [hcw] at h; simp [pyDictGetKey] at h
  · intro a ty args hne h
    rw [step_preserves_workers a ⟨ty, args⟩,
      step_preserves_current_worker a ty args hne]
    exact h

/-- Witness for C2 (amended): `compile`, `reset`, `add_worker` and a `WAIT`
step, each at a concrete agent. -/
theorem active_worker_membership_witness :
    ((pyDictGetKey (agentA.compile "b" "k" mapResponse).1.state.workers
        (agentA.compile "b" "k" mapResponse).1.state.current_worker_id).isSome
      = true) ∧
    ((compiledA.reset).workers = compiledA.workers ∧
      (compiledA.reset).current_worker_id = compiledA.current_worker_id) ∧
    ((pyDictGetKey (compiledA.add_worker workerB).workers
        (compiledA.add_worker workerB).current_worker_id).isSome = true) ∧
    ((pyDictGetKey (compiledA.step ⟨.WAIT, none⟩).state.workers
        (compiledA.step ⟨.WAIT, none⟩).state.current_worker_id).isSome
      = true) := by
  refine ⟨active_worker_membership.1 agentA "b" "k" mapResponse ?_ (by rfl),
    active_worker_membership.2.1 compiledA,
    active_worker_membership.2.2.1 compiledA workerB (by rfl),
    active_worker_membership.2.2.2 compiledA .WAIT none (by simp) (by rfl)⟩
  intro p hp
  simp only [agentA, mkWorkersDict, dictInsert, List.foldl] at hp
  simp at hp
  subst hp
  rfl

/-- A raw callback returning a mapping makes the wrapped callback succeed
with the merged snapshot. -/
theorem get_state_fn_obj (w : WorkerConfig) (fr : Option FunctionResult)
    (cs : Option JVal) (fs : List (String × JVal))
    (h : w.get_state_fn_raw fr cs = .obj fs) :
    w.get_state_fn fr cs = .ok (.obj (fs.foldl (fun d p => dictInsert p.1 p.2 d)
      [("instructions", .str w.instruction)])) := by
  unfold WorkerConfig.get_state_fn
  rw [h]

/-- The stored initial snapshot of a worker with a mapping-returning raw
callback is the merge of its fields over the instructions entry. -/
theorem initialSnapshot_obj (w : WorkerConfig) (fs : List (String × JVal))
    (h : w.get_state_fn_raw none none = .obj fs) :
    initialSnapshot w = .obj (fs.foldl (fun d p => dictInsert p.1 p.2 d)
      [("instructions", .str w.instruction)]) := by
  unfold initialSnapshot
  rw [get_state_fn_obj w none none fs h]

/-- When every raw callback returns a mapping and ids are fresh, the
worker-state initialization loop succeeds and appends one snapshot per
worker, in order. -/
theorem initWorkerStates_ok (ws : List WorkerConfig) :
    ∀ acc : List (String × JVal),
    (∀ w ∈ ws, (w.get_state_fn_raw none none).isObj = true) →
    (acc.map (fun p => p.1) ++ ws.map (fun w => w.id)).Nodup →
    initWorkerStates ws acc =
      .ok (acc ++ ws.map (fun w => (w.id, initialSnapshot w))) := by
  induction ws with
  | nil => intro acc _ _; simp [initWorkerStates]
  | cons w rest ih =>
    intro acc hobj hnd
    have hw := hobj w (List.mem_cons_self _ _)
    obtain ⟨fs, hfs⟩ : ∃ fs, w.get_state_fn_raw none none = .obj fs := by
      rcases h : w.get_state_fn_raw none none with _ | _ | _ | _ | _ | fs
      case obj => exact ⟨fs, rfl⟩
      all_goals (rw [h] at hw; simp [JVal.isObj] at hw)
    have hok := get_state_fn_obj w none none fs hfs
    have hsnap := initialSnapshot_obj w fs hfs
    have hnd' := List.nodup_append.mp hnd
    have hwin : w.id ∈ (w :: rest).map (fun w => w.id) := by simp
    have hfresh : w.id ∉ acc.map (fun p => p.1) := fun hmem => hnd'.2.2 hmem hwin
    have hfreshb : acc.any (fun p => p.1 = w.id) = false := by
      rw [List.any_eq_false]
      intro p hp
      simp only [decide_eq_true_eq]
      intro he
      exact hfresh (he ▸ List.mem_map_of_mem (fun q => q.1) hp)
    have hobjr : ∀ w' ∈ rest, (w'.get_state_fn_raw none none).isObj = true :=
      fun w' hw' => hobj w' (List.mem_cons_of_mem _ hw')
    have hndr : ((acc ++ [(w.id, initialSnapshot w)]).map (fun p => p.1) ++
        rest.map (fun w => w.id)).Nodup := by
      simpa [List.map_append, List.append_assoc] using hnd
    unfold initWorkerStates
    rw [hok]
    simp only [JVal.isObj, if_true]
    rw [dictInsert_fresh hfreshb, ← hsnap, ih (acc ++ [(w.id, initialSnapshot w)]) hobjr hndr]
    simp [List.append_assoc]

/-- When some raw callback returns a non-mapping, the worker-state
initialization loop fails with a `TypeError` (never with the validation
branch's error). -/
theorem initWorkerStates_err (ws : List WorkerConfig) :
    ∀ acc : List (String × JVal),
    (∃ w ∈ ws, (w.get_state_fn_raw none none).isObj = false) →
    ∃ m, initWorkerStates ws acc = .error (.typeError m) := by
  induction ws with
  | nil => intro acc h; simp at h
  | cons w rest ih =>
    intro acc hbad
    rcases hraw : w.get_state_fn_raw none none with _ | b | n | s | es | fs
    case obj =>
      have hok := get_state_fn_obj w none none fs hraw
      have hbad' : ∃ w' ∈ rest, (w'.get_state_fn_raw none none).isObj = false := by
        rcases hbad with ⟨w', hw', hbadw⟩
        rcases List.mem_cons.mp hw' with rfl | hmem
        · rw [hraw] at hbadw; simp [JVal.isObj] at hbadw
        · exact ⟨w', hmem, hbadw⟩
      obtain ⟨m, hm⟩ := ih _ hbad'
      refine ⟨m, ?_⟩
      unfold initWorkerStates
      rw [hok]
      simpa [JVal.isObj] using hm
    all_goals {
      have herr : w.get_state_fn none none =
          .error (.typeError "argument after ** must be a mapping") := by
        unfold WorkerConfig.get_state_fn
        rw [hraw]
      exact ⟨_, by unfold initWorkerStates; rw [herr]⟩
    }

/-- The serialization loop raises its `AttributeError` as soon as any worker
in the list has a non-empty action space. -/
theorem serializeWorkers_err (ws : List WorkerConfig)
    (h : ∃ w ∈ ws, w.action_space.isEmpty = false) :
    serializeWorkers ws =
      .error (.attributeError "'str' object has no attribute 'get_function_def'") := by
  induction ws with
  | nil => simp at h
  | cons w rest ih =>
    cases hw : w.action_space.isEmpty with
    | false =>
      unfold serializeWorkers
      simp [hw]
    | true =>
      have h' : ∃ w' ∈ rest, w'.action_space.isEmpty = false := by
        rcases h with ⟨w', hw', hb⟩
        rcases List.mem_cons.mp hw' with rfl | hmem
        · rw [hw] at hb; exact absurd hb (by simp)
        · exact ⟨w', hmem, hb⟩
      unfold serializeWorkers
      simp [hw, ih h']

/-- A successful `create_workers` result certifies that the serialization
loop succeeded and that exactly the single batch POST was issued. -/
theorem create_workers_ok_serialized (b k : String) (ws : List WorkerConfig)
    (resp : HttpResponse) (mid : JVal)
    (h : (create_workers b k ws resp).2 = .ok mid) :
    ∃ configs, serializeWorkers ws = .ok configs ∧
      (create_workers b k ws resp).1 =
        [postRequest b k "/v2/workers" (.obj [("workers", .arr configs)])] := by
  cases hs : serializeWorkers ws with
  | error e =>
    simp [create_workers, create_workers_result, hs] at h
  | ok configs =>
    exact ⟨configs, rfl, by simp [create_workers, create_workers_requests, hs]⟩

/-- C10 counterexample: for the concrete agent whose only worker's state
callback returns a string, the failure `compile` raises is the `TypeError`
from the wrapped callback's dict-unpacking — no validation failure is ever
raised (compile's own `ValidationError` branch is unreachable, since the
wrapped callback either raises or returns a dict). -/
theorem compile_failure_not_validation_cex :
    (agentBadState.compile "b" "k" mapResponse).1.result =
      .error (.typeError "argument after ** must be a mapping") := rfl

/-- C10 (amended): `compile` is not atomic on failure.  When the registration
call succeeds — which, due to the dict-iteration slip at `create_workers`
(source line 194), is only possible when every worker's action space is
empty — and some worker's raw state callback returns a non-mapping, the
failure raised is a `TypeError` from the wrapped callback (not compile's
validation branch), and by that time the single registration request has been
issued and the map id and the active worker id have been updated, while
`worker_states` is left exactly as it was (unassigned on a fresh agent).
When instead some worker's action space is non-empty, `compile` raises the
serialization `AttributeError` with no request issued and no attribute
changed. -/
theorem compile_not_atomic (a : Agent) (b k : String) (resp : HttpResponse)
    (mid : JVal) (k₀ : String) (w₀ : WorkerConfig)
    (rest : List (String × WorkerConfig))
    (hworkers : a.workers = (k₀, w₀) :: rest)
    (hreg : (create_workers b k (w₀ :: rest.map (fun x => x.2)) resp).2 = .ok mid)
    (hbad : ∃ p ∈ a.workers, (p.2.get_state_fn_raw none none).isObj = false) :
    (∃ body, (a.compile b k resp).2 = [postRequest b k "/v2/workers" body]) ∧
    (∃ m, (a.compile b k resp).1.result = .error (.typeError m)) ∧
    (a.compile b k resp).1.state.map_id = some mid ∧
    (a.compile b k resp).1.state.current_worker_id = .str w₀.id ∧
    (a.compile b k resp).1.state.worker_states = a.worker_states ∧
    (∀ (a₂ : Agent) (k₂ : String) (w₂ : WorkerConfig)
      (rest₂ : List (String × WorkerConfig)),
      a₂.workers = (k₂, w₂) :: rest₂ →
      (∃ p ∈ a₂.workers, p.2.action_space.isEmpty = false) →
      (a₂.compile b k resp).2 = [] ∧
      (a₂.compile b k resp).1.result =
        .error (.attributeError "'str' object has no attribute 'get_function_def'") ∧
      (a₂.compile b k resp).1.state = a₂) := by
  have hbad' : ∃ w ∈ w₀ :: rest.map (fun x => x.2),
      (w.get_state_fn_raw none none).isObj = false := by
    rcases hbad with ⟨p, hp, hb⟩
    rw [hworkers] at hp
    rcases List.mem_cons.mp hp with rfl | hmem
    · exact ⟨w₀, List.mem_cons_self _ _, hb⟩
    · exact ⟨p.2, List.mem_cons_of_mem _ (List.mem_map_of_mem _ hmem), hb⟩
  obtain ⟨m, hm⟩ := initWorkerStates_err (w₀ :: rest.map (fun x => x.2)) [] hbad'
  obtain ⟨configs, hser, hreqs⟩ :=
    create_workers_ok_serialized b k (w₀ :: rest.map (fun x => x.2)) resp mid hreg
  refine ⟨⟨.obj [("workers", .arr configs)], ?_⟩, ⟨m, ?_⟩, ?_, ?_, ?_, ?_⟩
  · simp [Agent.compile, hworkers, hreg, hm, hreqs]
  · simp [Agent.compile, hworkers, hreg, hm]
  · simp [Agent.compile, hworkers, hreg, hm]
  · simp [Agent.compile, hworkers, hreg, hm]
  · simp [Agent.compile, hworkers, hreg, hm]
  · intro a₂ k₂ w₂ rest₂ hws₂ hne
    have hne' : ∃ w ∈ w₂ :: rest₂.map (fun x => x.2),
        w.action_space.isEmpty = false := by
      rcases hne with ⟨p, hp, hb⟩
      rw [hws₂] at hp
      rcases List.mem_cons.mp hp with rfl | hmem
      · exact ⟨w₂, List.mem_cons_self _ _, hb⟩
      · exact ⟨p.2, List.mem_cons_of_mem _ (List.mem_map_of_mem _ hmem), hb⟩
    have hser₂ := serializeWorkers_err (w₂ :: rest₂.map (fun x => x.2)) hne'
    refine ⟨?_, ?_, ?_⟩ <;>
      simp [Agent.compile, hws₂, create_workers, create_workers_requests,
        create_workers_result, hser₂]

/-- Witness for C10: the concrete agent with the string-returning callback
(empty action space, so registration genuinely succeeds); its
`worker_states` attribute was never set and stays unset.  The agent carrying
a function shows the serialization `AttributeError` path: no request, no
state change. -/
theorem compile_not_atomic_witness :
    ((∃ body, (agentBadState.compile "b" "k" mapResponse).2 =
        [postRequest "b" "k" "/v2/workers" body]) ∧
     (∃ m, (agentBadState.compile "b" "k" mapResponse).1.result =
        .error (.typeError m)) ∧
     (agentBadState.compile "b" "k" mapResponse).1.state.map_id =
        some (.str "map_1") ∧
     (agentBadState.compile "b" "k" mapResponse).1.state.current_worker_id =
        .str "w_bad" ∧
     (agentBadState.compile "b" "k" mapResponse).1.state.worker_states =
        agentBadState.worker_states) ∧
    agentBadState.worker_states = none ∧
    ((agentF.compile "b" "k" mapResponse).2 = [] ∧
     (agentF.compile "b" "k" mapResponse).1.result =
        .error (.attributeError "'str' object has no attribute 'get_function_def'") ∧
     (agentF.compile "b" "k" mapResponse).1.state = agentF) := by
  have h := compile_not_atomic agentBadState "b" "k" mapResponse (.str "map_1")
    "w_bad" workerBadState [] rfl rfl
    ⟨("w_bad", workerBadState), List.mem_cons_self _ _, rfl⟩
  exact ⟨⟨h.1, h.2.1, h.2.2.1, h.2.2.2.1, h.2.2.2.2.1⟩, rfl,
    h.2.2.2.2.2 agentF "worker_f" workerF [] rfl
      ⟨("worker_f", workerF), List.mem_cons_self _ _, rfl⟩⟩

/-- C4 counterexample: (i) a raw callback whose mapping itself carries an
`"instructions"` entry overrides the configured instruction in the stored
snapshot (`"override"`, not `"base instruction"`); (ii) a raw callback
returning a non-mapping makes `compile` raise a `TypeError` from
dict-unpacking, not a validation failure naming the worker id. -/
theorem compile_snapshot_cex :
    workerOvr.instruction = "base instruction" ∧
    (agentOvr.compile "b" "k" mapResponse).1.state.worker_states =
      some [("w_ovr", .obj [("instructions", .str "override")])] ∧
    (agentOvr.compile "b" "k" mapResponse).1.result = .ok (.str "map_1") ∧
    (agentBadState.compile "b" "k" mapResponse).1.result =
      .error (.typeError "argument after ** must be a mapping") :=
  ⟨rfl, rfl, rfl, rfl⟩

/-- C4 (amended): for every agent with N >= 1 workers with distinct ids whose
raw state callbacks return mappings, and a successful registration, `compile`
returns the registered map id, sets the active worker to the first-inserted
worker, and stores exactly N snapshots, one per worker in order, each the
value of that worker's wrapped callback at `(None, None)`; each snapshot's
`"instructions"` entry equals the configured instruction whenever the raw
mapping carries no `"instructions"` key of its own (a raw entry overrides
it).  A raw callback returning a non-mapping makes `compile` raise the
dict-unpacking `TypeError`, not a validation failure naming the worker. -/
theorem compile_success_spec (a : Agent) (b k : String) (resp : HttpResponse)
    (mid : JVal) (k₀ : String) (w₀ : WorkerConfig)
    (rest : List (String × WorkerConfig))
    (hworkers : a.workers = (k₀, w₀) :: rest)
    (hnodup : (a.workers.map (fun p => p.2.id)).Nodup)
    (hobj : ∀ p ∈ a.workers, (p.2.get_state_fn_raw none none).isObj = true)
    (hreg : (create_workers b k (w₀ :: rest.map (fun x => x.2)) resp).2 = .ok mid) :
    (a.compile b k resp).1.result = .ok mid ∧
    (a.compile b k resp).1.state.current_worker_id = .str w₀.id ∧
    (a.compile b k resp).1.state.worker_states =
      some (a.workers.map (fun p => (p.2.id, initialSnapshot p.2))) ∧
    (a.compile b k resp).1.state.worker_states.map List.length =
      some a.workers.length ∧
    (∀ p ∈ a.workers, ∀ fs, p.2.get_state_fn_raw none none = .obj fs →
      dictGet? fs "instructions" = none →
      (initialSnapshot p.2).pyGet "instructions" .null =
        some (.str p.2.instruction)) ∧
    (∀ (a₂ : Agent) (k₂ : String) (w₂ : WorkerConfig)
      (rest₂ : List (String × WorkerConfig)) (mid₂ : JVal),
      a₂.workers = (k₂, w₂) :: rest₂ →
      (create_workers b k (w₂ :: rest₂.map (fun x => x.2)) resp).2 = .ok mid₂ →
      (∃ p ∈ a₂.workers, (p.2.get_state_fn_raw none none).isObj = false) →
      ∃ m, (a₂.compile b k resp).1.result = .error (.typeError m)) := by
  have hobj' : ∀ w ∈ w₀ :: rest.map (fun x => x.2),
      (w.get_state_fn_raw none none).isObj = true := by
    intro w hw
    rcases List.mem_cons.mp hw with rfl | hmem
    · exact hobj (k₀, w) (by rw [hworkers]; exact List.mem_cons_self _ _)
    · obtain ⟨p, hp, rfl⟩ := List.mem_map.mp hmem
      exact hobj p (by rw [hworkers]; exact List.mem_cons_of_mem _ hp)
  have hnodup' : (([] : List (String × JVal)).map (fun p => p.1) ++
      (w₀ :: rest.map (fun x => x.2)).map (fun w => w.id)).Nodup := by
    rw [hworkers] at hnodup
    simpa [List.map_map, Function.comp] using hnodup
  have hinit := initWorkerStates_ok (w₀ :: rest.map (fun x => x.2)) []
    hobj' hnodup'
  refine ⟨?_, ?_, ?_, ?_, ?_, ?_⟩
  · simp [Agent.compile, hworkers, hreg, hinit]
  · simp [Agent.compile, hworkers, hreg, hinit]
  · simp [Agent.compile, hworkers, hreg, hinit, List.map_map, Function.comp]
  · simp [Agent.compile, hworkers, hreg, hinit]
  · intro p hp fs hfs hni
    have hni' : ∀ q ∈ fs, q.1 ≠ "instructions" := by
      intro q hq
      simp only [dictGet?, Option.map_eq_none'] at hni
      have := List.find?_eq_none.mp hni q hq
      simpa using this
    rw [initialSnapshot_obj p.2 fs hfs]
    simp only [JVal.pyGet]
    rw [foldl_dictInsert_get fs [("instructions", .str p.2.instruction)]
      "instructions" hni',
      dictGet?_cons_pos ("instructions", JVal.str p.2.instruction) [] "instructions" rfl]
    rfl
  · intro a₂ k₂ w₂ rest₂ mid₂ hws₂ hreg₂ hbad₂
    have hbad' : ∃ w ∈ w₂ :: rest₂.map (fun x => x.2),
        (w.get_state_fn_raw none none).isObj = false := by
      rcases hbad₂ with ⟨p, hp, hb⟩
      rw [hws₂] at hp
      rcases List.mem_cons.mp hp with rfl | hmem
      · exact ⟨w₂, List.mem_cons_self _ _, hb⟩
      · exact ⟨p.2, List.mem_cons_of_mem _ (List.mem_map_of_mem _ hmem), hb⟩
    obtain ⟨m, hm⟩ := initWorkerStates_err (w₂ :: rest₂.map (fun x => x.2)) [] hbad'
    exact ⟨m, by simp [Agent.compile, hws₂, hreg₂, hm]⟩

/-- Witness for C4 (amended): the two-worker agent compiled against the
concrete registration response. -/
theorem compile_success_spec_witness :
    ((agentAB.compile "b" "k" mapResponse).1.result = .ok (.str "map_1")) ∧
    ((agentAB.compile "b" "k" mapResponse).1.state.current_worker_id =
      .str "worker_a") ∧
    ((agentAB.compile "b" "k" mapResponse).1.state.worker_states =
      some [("worker_a", .obj [("instructions", .str "be helpful"),
                               ("status", .str "ready")]),
            ("worker_b", .obj [("instructions", .str "be fast"),
                               ("status", .str "idle")])]) ∧
    ((agentAB.compile "b" "k" mapResponse).1.state.worker_states.map
      List.length = some 2) ∧
    ((initialSnapshot workerA).pyGet "instructions" .null =
      some (.str "be helpful")) ∧
    (∃ m, (agentBadState.compile "b" "k" mapResponse).1.result =
      .error (.typeError m)) := by
  have h := compile_success_spec agentAB "b" "k" mapResponse (.str "map_1")
    "worker_a" workerA [("worker_b", workerB)] rfl (by decide)
    (by intro p hp; fin_cases hp <;> rfl) rfl
  exact ⟨h.1, h.2.1, h.2.2.1, h.2.2.2.1,
    h.2.2.2.2.1 ("worker_a", workerA) (List.mem_cons_self _ _)
      [("status", .str "ready")] rfl rfl,
    h.2.2.2.2.2 agentBadState "w_bad" workerBadState [] (.str "map_1") rfl rfl
      ⟨("w_bad", workerBadState), List.mem_cons_self _ _, rfl⟩⟩

end GameSDK
